import Mathlib

/-!
Verification development for the `weather-rs` repository: a shallow embedding
of its provider-abstraction and normalization layer (crate
`weather-api-services`, plus the provider dispatch in `weather-rs`), with
theorems checking the natural-language specification against the code.

Embedding conventions:
* Rust `f32` values are modelled as rationals (`ℚ`); every `f32` arithmetic
  operation performed by the code goes through `roundF32`, round-to-nearest,
  ties-to-even at 24 bits of precision, which is exact IEEE-754 `binary32`
  behaviour on the finite normal range (overflow and subnormal underflow are
  outside the range exercised here).
* Rust `u8`/`u16` values are modelled as `Nat`; the only machine-width
  operation the code performs is the saturating `as u16` cast (`f32ToU16`).
* A Rust panic (`Option::unwrap` on `None`) is modelled as `none` /
  `ApiResult.panicked`: the conversion `From<WeatherApiHistoryData>` in
  `models.rs` indexes its lists unchecked.
* The HTTP transport, the date parser (`dateparser` crate) and the JSON
  (de)serializer (`serde_json`) are external collaborators: they enter as
  function parameters (`transport`, `parseDate`, decoding oracles), and each
  service returns, next to its result, the list of HTTP requests it issued.
-/

attribute [local semireducible] Rat.mul Rat.inv Rat.add Rat.sub

/-- Two to an integer power, as a rational.  Helper for the `f32` model. -/
def pow2 (z : ℤ) : ℚ :=
  if 0 ≤ z then ((2 ^ z.toNat : ℕ) : ℚ) else 1 / ((2 ^ (-z).toNat : ℕ) : ℚ)

/-- Fuel-driven search for the binary exponent of a rational `q ≥ 1`:
largest `e` with `2 ^ e ≤ q`, provided `q < 2 ^ fuel`. -/
def ilog2Up (fuel : Nat) (q : ℚ) : ℤ :=
  match fuel with
  | 0 => 0
  | f + 1 => if q < 2 then 0 else ilog2Up f (q / 2) + 1

/-- Fuel-driven search for the binary exponent of a rational `0 < q < 1`:
the `e < 0` with `2 ^ e ≤ q < 2 ^ (e + 1)`, provided `q ≥ 2 ^ (-fuel)`. -/
def ilog2Down (fuel : Nat) (q : ℚ) : ℤ :=
  match fuel with
  | 0 => 0
  | f + 1 => if 1 ≤ q then 0 else ilog2Down f (2 * q) - 1

/-- Binary exponent `⌊log₂ q⌋` of a positive rational (fuel 300 covers the
whole `f32` exponent range). -/
def ilog2 (q : ℚ) : ℤ :=
  if 1 ≤ q then ilog2Up 300 q else ilog2Down 300 q

/-- Round a rational to the nearest `f32` value (24-bit significand,
round-to-nearest, ties-to-even), on the finite normal range.  This is the
rounding every `f32` arithmetic operation of the source performs on its
exact mathematical result. -/
def roundF32 (q : ℚ) : ℚ :=
  if q = 0 then 0
  else
    let s : ℚ := if q < 0 then -1 else 1
    let a : ℚ := if q < 0 then -q else q
    let e : ℤ := ilog2 a
    let m : ℚ := a * pow2 (23 - e)
    let n : ℤ := ⌊m⌋
    let r : ℚ := m - (n : ℚ)
    let n2 : ℤ :=
      if 1 / 2 < r then n + 1
      else if r < 1 / 2 then n
      else if n % 2 = 0 then n else n + 1
    s * (n2 : ℚ) * pow2 (e - 23)

/-- Rust `f32` multiplication: exact product, rounded. -/
def f32Mul (x y : ℚ) : ℚ := roundF32 (x * y)

/-- Rust `f32` division: exact quotient, rounded. -/
def f32Div (x y : ℚ) : ℚ := roundF32 (x / y)

/-- Rust saturating cast `as u16` from `f32`: truncate toward zero, clamp
to `[0, 65535]`. -/
def f32ToU16 (q : ℚ) : ℕ :=
  if q < 0 then 0 else min 65535 (⌊q⌋.toNat)

/-- Canonical weather model, `WeatherData` of `models.rs`: `temp : f32`,
`humidity : u8`, `pressure : u16`, `wind_speed : f32`, `visibility : u16`,
`description : String`. -/
structure WeatherData where
  temp : ℚ
  humidity : ℕ
  pressure : ℕ
  wind_speed : ℚ
  visibility : ℕ
  description : String
deriving DecidableEq

/-- OpenWeather wire model `WeatherMain` (`openweather_model.rs`). -/
structure WeatherMain where
  temp : ℚ
  humidity : ℕ
  pressure : ℕ
deriving DecidableEq

/-- OpenWeather wire model `Weather` (`openweather_model.rs`). -/
structure Weather where
  description : String
deriving DecidableEq

/-- OpenWeather wire model `Wind` (`openweather_model.rs`). -/
structure Wind where
  speed : ℚ
deriving DecidableEq

/-- OpenWeather success wire model `OpenWeatherData` (`openweather_model.rs`). -/
structure OpenWeatherData where
  main : WeatherMain
  weather : List Weather
  visibility : ℕ
  wind : Wind
deriving DecidableEq

/-- OpenWeather error wire model `OpenWeatherErrorData`
(`openweather_model.rs`): shape `{cod, message}`. -/
structure OpenWeatherErrorData where
  cod : String
  message : String
deriving DecidableEq

/-- WeatherApi wire model `WeatherCondition` (`weatherapi_model.rs`). -/
structure WeatherCondition where
  text : String
deriving DecidableEq

/-- WeatherApi wire model `WeatherCurrent` (`weatherapi_model.rs`). -/
structure WeatherCurrent where
  temp_c : ℚ
  condition : WeatherCondition
  wind_kph : ℚ
  pressure_mb : ℚ
  humidity : ℕ
  vis_km : ℚ
deriving DecidableEq

/-- WeatherApi "current" success wire model `WeatherApiData`
(`weatherapi_model.rs`). -/
structure WeatherApiData where
  current : WeatherCurrent
deriving DecidableEq

/-- WeatherApi history wire model `HistoryForecastDay` (`weatherapi_model.rs`). -/
structure HistoryForecastDay where
  hour : List WeatherCurrent
deriving DecidableEq

/-- WeatherApi history wire model `HistoryForecast` (`weatherapi_model.rs`). -/
structure HistoryForecast where
  forecastday : List HistoryForecastDay
deriving DecidableEq

/-- WeatherApi "history" success wire model `WeatherApiHistoryData`
(`weatherapi_model.rs`). -/
structure WeatherApiHistoryData where
  forecast : HistoryForecast
deriving DecidableEq

/-- WeatherApi error payload `DataError` (`weatherapi_model.rs`):
shape `{code, message}`. -/
structure DataError where
  code : ℕ
  message : String
deriving DecidableEq

/-- WeatherApi error wire model `WeatherApiErrorData` (`weatherapi_model.rs`):
shape `{ error: {code, message} }`. -/
structure WeatherApiErrorData where
  error : DataError
deriving DecidableEq

/-- `km_per_hour_to_m_per_sec` of `models.rs`:
`km_per_hour * (1000.0 / 3600.0)`, both operations in `f32`. -/
def km_per_hour_to_m_per_sec (km_per_hour : ℚ) : ℚ :=
  f32Mul km_per_hour (f32Div 1000 3600)

/-- `km_to_m` of `models.rs`: `(km * 1000.0) as u16`, the product in `f32`,
then the saturating cast. -/
def km_to_m (km : ℚ) : ℕ :=
  f32ToU16 (f32Mul km 1000)

/-- `impl From<OpenWeatherData> for WeatherData` (`models.rs`): direct field
copies; the description comes from `weather.pop()` (the last list element),
defaulting to the empty string on an empty list via `map_or_else`. -/
def OpenWeatherData.toWeatherData (openweather_data : OpenWeatherData) : WeatherData :=
  { temp := openweather_data.main.temp
    humidity := openweather_data.main.humidity
    pressure := openweather_data.main.pressure
    wind_speed := openweather_data.wind.speed
    visibility := openweather_data.visibility
    description :=
      match openweather_data.weather.getLast? with
      | none => ""
      | some w => w.description }

/-- The field mapping shared by both WeatherApi conversions in `models.rs`:
how one `WeatherCurrent` record becomes a `WeatherData`. -/
def WeatherCurrent.toWeatherData (current : WeatherCurrent) : WeatherData :=
  { temp := current.temp_c
    humidity := current.humidity
    pressure := f32ToU16 current.pressure_mb
    wind_speed := km_per_hour_to_m_per_sec current.wind_kph
    visibility := km_to_m current.vis_km
    description := current.condition.text }

/-- `impl From<WeatherApiData> for WeatherData` (`models.rs`). -/
def WeatherApiData.toWeatherData (weatherapi_data : WeatherApiData) : WeatherData :=
  weatherapi_data.current.toWeatherData

/-- `impl From<WeatherApiHistoryData> for WeatherData` (`models.rs`):
`forecastday.pop().unwrap().hour` (the **last** day) then `.get(0).unwrap()`
(the **first** hour entry).  Both unwraps are unchecked: `none` models the
panic on an empty day list or an empty hour list. -/
def WeatherApiHistoryData.toWeatherData
    (weatherapi_history_data : WeatherApiHistoryData) : Option WeatherData :=
  match weatherapi_history_data.forecast.forecastday.getLast? with
  | none => none
  | some day =>
    match day.hour.head? with
    | none => none
    | some current => some current.toWeatherData


/-- ANSI yellow colouring as produced by the `owo-colors` crate's
`.yellow().to_string()` (foreground yellow, then foreground reset), used by
`weatherapi_service.rs` on its date and server-error strings. -/
def yellow (s : String) : String := "\x1b[33m" ++ s ++ "\x1b[39m"

/-- ANSI yellow colouring as produced by the `colored` crate's `.yellow()`
(foreground yellow, then full reset), used by `handlers.rs` on the strings
of its configuration error. -/
def coloredYellow (s : String) : String := "\x1b[33m" ++ s ++ "\x1b[0m"

/-- The error surface a provider client can produce through `anyhow`:
`WeatherApiError` (Creation, Request, Server, BodyText), `WeatherDataError`
(JsonParse) and `DateTimeError` (Parse) of `lib.rs` / `models.rs`.

Payload notes, faithful to the source:
* `request` carries the provider-name string of `WeatherApiError::Request`
  when the service supplies one (`weatherapi_service.rs` line 97 supplies
  `"Weather API".yellow()`; `openweather_service.rs` line 93 applies the
  constructor to no such string, modelled `none`); the wrapped
  `reqwest::Error` is a transport detail left out of the model.
* `dateTimeParse` carries the string of `DateTimeError::Parse`:
  `weatherapi_service.rs` line 81 supplies `date.yellow().to_string()`,
  while `openweather_service.rs` line 80 writes the bare constructor
  `DateTimeError::Parse` and supplies no string, modelled `none`. -/
inductive ApiError where
  | creation
  | request (provider : Option String)
  | server (message : String)
  | bodyText
  | jsonParse
  | dateTimeParse (input : Option String)
deriving DecidableEq

/-- One HTTP GET as the services issue it: target URL plus query parameters
(the source collects them in a `HashMap`; the model lists them in insertion
order). -/
structure HttpRequest where
  url : String
  params : List (String × String)
deriving DecidableEq

/-- What the transport hands back for a request: `none` models a send
failure (`WeatherApiError::Request`), `bodyText = none` models a body that
cannot be read as text (`WeatherApiError::BodyText`). -/
structure HttpResponse where
  status : ℕ
  bodyText : Option String
deriving DecidableEq

/-- Outcome of one `get_weather_data` call.  `panicked` models a Rust panic
(the unchecked unwraps of the history conversion); it is distinct from
every `ApiError`. -/
inductive ApiResult where
  | ok (data : WeatherData)
  | err (e : ApiError)
  | panicked
deriving DecidableEq

/-- URL cleaning shared by both constructors (`openweather_service.rs`
lines 36-39, `weatherapi_service.rs` lines 38-41): `if url.ends_with('/')
{ url.pop(); }` — strip exactly one trailing `'/'` if present. -/
def cleanUrl (url : String) : String :=
  if url.data.getLast? = some '/' then ⟨url.data.dropLast⟩ else url

/-- `OpenWeatherApiService` (`openweather_service.rs`): stored URL and API
key; the `reqwest::Client` handle is the `transport` parameter of
`get_weather_data` in this model. -/
structure OpenWeatherApiService where
  url : String
  api_key : String
deriving DecidableEq

/-- `WeatherApiService` (`weatherapi_service.rs`): stored URL and API key. -/
structure WeatherApiService where
  url : String
  api_key : String
deriving DecidableEq

/-- `OpenWeatherApiService::new` (`openweather_service.rs` lines 31-46):
`Creation` error when the URL or the key `is_empty()`, else store the
cleaned URL and the key.  Construction performs no I/O. -/
def OpenWeatherApiService.new (url api_key : String) :
    Except ApiError OpenWeatherApiService :=
  if url = "" ∨ api_key = "" then .error .creation
  else .ok { url := cleanUrl url, api_key }

/-- `WeatherApiService::new` (`weatherapi_service.rs` lines 33-48). -/
def WeatherApiService.new (url api_key : String) :
    Except ApiError WeatherApiService :=
  if url = "" ∨ api_key = "" then .error .creation
  else .ok { url := cleanUrl url, api_key }

/-- Response interpretation of `OpenWeatherApiService::get_weather_data`
(`openweather_service.rs` lines 95-115): read the body text (else
`BodyText`), then branch on `status == 200`: deserialize the success schema
(`JsonParse` on failure) and convert, or deserialize the error schema
(`JsonParse` on failure) and surface `Server(message)` with the payload's
`message` field unchanged. -/
def OpenWeatherApiService.handleResponse
    (decodeData : String → Option OpenWeatherData)
    (decodeErr : String → Option OpenWeatherErrorData)
    (resp : HttpResponse) : ApiResult :=
  match resp.bodyText with
  | none => .err .bodyText
  | some body =>
    if resp.status = 200 then
      match decodeData body with
      | none => .err .jsonParse
      | some openweather_data => .ok openweather_data.toWeatherData
    else
      match decodeErr body with
      | none => .err .jsonParse
      | some weather_error_data => .err (.server weather_error_data.message)

/-- `OpenWeatherApiService::get_weather_data` (`openweather_service.rs`
lines 72-115): query parameters `q`, `units=metric`, `appid`; when a date
is supplied it is parsed (bare `DateTimeError::Parse` on failure, before
any request) and its Unix timestamp attached as `dt`; one GET to the
stored URL unchanged; then `handleResponse`.  The second component lists
the HTTP requests issued. -/
def OpenWeatherApiService.get_weather_data
    (svc : OpenWeatherApiService)
    (parseDate : String → Option ℤ)
    (transport : HttpRequest → Option HttpResponse)
    (decodeData : String → Option OpenWeatherData)
    (decodeErr : String → Option OpenWeatherErrorData)
    (address : String) (date : Option String) :
    ApiResult × List HttpRequest :=
  let base := [("q", address), ("units", "metric"), ("appid", svc.api_key)]
  let paramsE : Except ApiError (List (String × String)) :=
    match date with
    | none => .ok base
    | some d =>
      match parseDate d with
      | none => .error (.dateTimeParse none)
      | some timestamp => .ok (base ++ [("dt", toString timestamp)])
  match paramsE with
  | .error e => (.err e, [])
  | .ok params =>
    let req : HttpRequest := { url := svc.url, params := params }
    match transport req with
    | none => (.err (.request none), [req])
    | some resp => (OpenWeatherApiService.handleResponse decodeData decodeErr resp, [req])

/-- Response interpretation of `WeatherApiService::get_weather_data`
(`weatherapi_service.rs` lines 99-122): read the body text (else
`BodyText`); on `status == 200` deserialize the history schema when a date
was supplied, else the current schema (`JsonParse` on failure), and convert
— the history conversion can panic; otherwise deserialize the error schema
and surface `Server` with the payload's `error.message` passed through
`.yellow().to_string()`. -/
def WeatherApiService.handleResponse
    (decodeData : String → Option WeatherApiData)
    (decodeHistory : String → Option WeatherApiHistoryData)
    (decodeErr : String → Option WeatherApiErrorData)
    (date : Option String) (resp : HttpResponse) : ApiResult :=
  match resp.bodyText with
  | none => .err .bodyText
  | some body =>
    if resp.status = 200 then
      match date with
      | some _ =>
        match decodeHistory body with
        | none => .err .jsonParse
        | some h =>
          match h.toWeatherData with
          | none => .panicked
          | some w => .ok w
      | none =>
        match decodeData body with
        | none => .err .jsonParse
        | some weatherapi_data => .ok weatherapi_data.toWeatherData
    else
      match decodeErr body with
      | none => .err .jsonParse
      | some weather_error_data =>
        .err (.server (yellow weather_error_data.error.message))

/-- `WeatherApiService::get_weather_data` (`weatherapi_service.rs` lines
74-123): query parameters `q` and `key`; when a date is supplied it is
parsed (`DateTimeError::Parse(date.yellow())` on failure, before any
request) and its Unix timestamp attached as `unixdt`; one GET to the stored
URL with `/history.json` appended when a date is supplied and
`/current.json` otherwise; then `handleResponse`. -/
def WeatherApiService.get_weather_data
    (svc : WeatherApiService)
    (parseDate : String → Option ℤ)
    (transport : HttpRequest → Option HttpResponse)
    (decodeData : String → Option WeatherApiData)
    (decodeHistory : String → Option WeatherApiHistoryData)
    (decodeErr : String → Option WeatherApiErrorData)
    (address : String) (date : Option String) :
    ApiResult × List HttpRequest :=
  let base := [("q", address), ("key", svc.api_key)]
  let paramsE : Except ApiError (List (String × String)) :=
    match date with
    | none => .ok base
    | some d =>
      match parseDate d with
      | none => .error (.dateTimeParse (some (yellow d)))
      | some timestamp => .ok (base ++ [("unixdt", toString timestamp)])
  match paramsE with
  | .error e => (.err e, [])
  | .ok params =>
    let url : String :=
      match date with
      | some _ => svc.url ++ "/history.json"
      | none => svc.url ++ "/current.json"
    let req : HttpRequest := { url := url, params := params }
    match transport req with
    | none => (.err (.request (some (yellow "Weather API"))), [req])
    | some resp =>
      (WeatherApiService.handleResponse decodeData decodeHistory decodeErr date resp, [req])

/-- The `Provider` enumeration of `providers.rs`: the closed set of
recognized weather data providers. -/
inductive Provider where
  | openWeather
  | weatherApi
  | accuWeather
  | aerisWeather
deriving DecidableEq

/-- The `Display` implementation of `Provider` (`providers.rs` lines 83-90). -/
def Provider.display (p : Provider) : String :=
  match p with
  | .openWeather => "open-weather"
  | .weatherApi => "weather-api"
  | .accuWeather => "accu-weather"
  | .aerisWeather => "aeris-weather"

/-- `ProviderConfig` of `config.rs`: base URL and optional API key. -/
structure ProviderConfig where
  url : String
  api_key : Option String
deriving DecidableEq

/-- `MainConfig` of `config.rs`: one `ProviderConfig` per provider plus the
selected provider. -/
structure MainConfig where
  selected_provider : Provider
  open_weather : ProviderConfig
  weather_api : ProviderConfig
  accu_weather : ProviderConfig
  aeris_weather : ProviderConfig
deriving DecidableEq

/-- Outcome of `get_weather_info` (`handlers.rs`): the fetched canonical
data, or a typed failure.  `configErr` is `ConfigError::ProviderConfig`
with the strings `handlers.rs` supplies (provider name, config file path,
configure command, each through the `colored` crate's `.yellow()`);
`notImplemented` is `ProviderError::ProviderNotImplemented`; `apiErr` wraps
a service-layer error; `panicked` models a panic inside the service call. -/
inductive AppResult where
  | ok (data : WeatherData)
  | configErr (provider configFile cmd : String)
  | notImplemented
  | apiErr (e : ApiError)
  | panicked
deriving DecidableEq

/-- Lift a service-call outcome into the handler's outcome. -/
def ApiResult.toAppResult : ApiResult → AppResult
  | .ok w => .ok w
  | .err e => .apiErr e
  | .panicked => .panicked

/-- `get_weather_info` (`handlers.rs` lines 67-128), up to the display
collaborators (spinner and table/JSON rendering are out of scope): branch
on the provider; for OpenWeather and WeatherApi read that provider's
configuration (missing API key yields `ConfigError::ProviderConfig`),
construct the matching client and call `get_weather_data`; for AccuWeather
and AerisWeather yield `ProviderError::ProviderNotImplemented` directly.
Returns the outcome, the HTTP requests issued, and the number of provider
clients constructed. -/
def get_weather_info
    (provider : Provider) (config : MainConfig)
    (parseDate : String → Option ℤ)
    (transport : HttpRequest → Option HttpResponse)
    (owDecode : String → Option OpenWeatherData)
    (owDecodeErr : String → Option OpenWeatherErrorData)
    (waDecode : String → Option WeatherApiData)
    (waDecodeHistory : String → Option WeatherApiHistoryData)
    (waDecodeErr : String → Option WeatherApiErrorData)
    (address : String) (date : Option String) :
    AppResult × List HttpRequest × ℕ :=
  match provider with
  | .openWeather =>
    match config.open_weather.api_key with
    | none =>
      (.configErr (coloredYellow Provider.openWeather.display)
        (coloredYellow "weather-rs/config.toml")
        (coloredYellow "weather-rs configure <PROVIDER> <API_KEY> [-u <URL>]"), [], 0)
    | some key =>
      match OpenWeatherApiService.new config.open_weather.url key with
      | .error e => (.apiErr e, [], 1)
      | .ok svc =>
        let r := svc.get_weather_data parseDate transport owDecode owDecodeErr address date
        (r.1.toAppResult, r.2, 1)
  | .weatherApi =>
    match config.weather_api.api_key with
    | none =>
      (.configErr (coloredYellow Provider.weatherApi.display)
        (coloredYellow "weather-rs/config.toml")
        (coloredYellow "weather-rs configure <PROVIDER> <API_KEY> [-u <URL>]"), [], 0)
    | some key =>
      match WeatherApiService.new config.weather_api.url key with
      | .error e => (.apiErr e, [], 1)
      | .ok svc =>
        let r := svc.get_weather_data parseDate transport waDecode waDecodeHistory waDecodeErr
          address date
        (r.1.toAppResult, r.2, 1)
  | .accuWeather => (.notImplemented, [], 0)
  | .aerisWeather => (.notImplemented, [], 0)

theorem cleanUrl_of_no_trailing_slash (u : String) (hs : u.data.getLast? ≠ some '/') :
    cleanUrl u = u :=
  if_neg hs

theorem cleanUrl_append_slash (u : String) : cleanUrl (u ++ "/") = u := by
  show (if (u.data ++ ['/']).getLast? = some '/' then (⟨(u.data ++ ['/']).dropLast⟩ : String)
      else u ++ "/") = u
  rw [if_pos (List.getLast?_concat _)]
  exact congrArg String.mk List.dropLast_concat

theorem cleanUrl_append_two_slashes (u : String) : cleanUrl (u ++ "//") = u ++ "/" := by
  show (if (u.data ++ ['/', '/']).getLast? = some '/' then
      (⟨(u.data ++ ['/', '/']).dropLast⟩ : String) else u ++ "//") = u ++ "/"
  have h2 : u.data ++ ['/', '/'] = (u.data ++ ['/']) ++ ['/'] := by simp
  rw [h2, if_pos (List.getLast?_concat _)]
  exact congrArg String.mk List.dropLast_concat

theorem append_slash_ne_empty (u v : String) (hv : v.data ≠ []) : u ++ v ≠ "" := by
  intro h
  have hd : u.data ++ v.data = [] := congrArg String.data h
  rcases List.append_eq_nil.mp hd with ⟨-, h2⟩
  exact hv h2

/-- Claim C1: for a WeatherApi historical response whose day list is
non-empty and whose selected day has a non-empty hour list, the conversion
to `WeatherData` is the conversion of the **last** day's **first** hour
entry; consequently any two responses agreeing on that entry convert
identically, so no other day and no other hour influences the result. -/
theorem history_conversion_selects_last_day_first_hour
    (h1 h2 : WeatherApiHistoryData) (day1 day2 : HistoryForecastDay)
    (current : WeatherCurrent)
    (e1 : h1.forecast.forecastday.getLast? = some day1)
    (f1 : day1.hour.head? = some current)
    (e2 : h2.forecast.forecastday.getLast? = some day2)
    (f2 : day2.hour.head? = some current) :
    h1.toWeatherData = some current.toWeatherData
    ∧ h1.toWeatherData = h2.toWeatherData := by
  have g1 : h1.toWeatherData = some current.toWeatherData := by
    simp only [WeatherApiHistoryData.toWeatherData, e1, f1]
  have g2 : h2.toWeatherData = some current.toWeatherData := by
    simp only [WeatherApiHistoryData.toWeatherData, e2, f2]
  exact ⟨g1, g1.trans g2.symm⟩

/-- Witness for C1: a two-day, two-hour response selects the last day's
first hour; a response differing in the other day and the other hour
converts to the same value. -/
theorem history_conversion_selects_last_day_first_hour_witness :
    WeatherApiHistoryData.toWeatherData
        ⟨⟨[⟨[⟨7, ⟨"other"⟩, 1, 2, 3, 4⟩]⟩,
           ⟨[⟨25, ⟨"Sunny"⟩, 36, 1010, 50, 10⟩, ⟨8, ⟨"noise"⟩, 5, 6, 7, 8⟩]⟩]⟩⟩
      = some (WeatherCurrent.toWeatherData ⟨25, ⟨"Sunny"⟩, 36, 1010, 50, 10⟩)
    ∧ WeatherApiHistoryData.toWeatherData
        ⟨⟨[⟨[⟨7, ⟨"other"⟩, 1, 2, 3, 4⟩]⟩,
           ⟨[⟨25, ⟨"Sunny"⟩, 36, 1010, 50, 10⟩, ⟨8, ⟨"noise"⟩, 5, 6, 7, 8⟩]⟩]⟩⟩
      = WeatherApiHistoryData.toWeatherData
        ⟨⟨[⟨[]⟩, ⟨[⟨25, ⟨"Sunny"⟩, 36, 1010, 50, 10⟩]⟩]⟩⟩ :=
  history_conversion_selects_last_day_first_hour _ _ _ _ _ rfl rfl rfl rfl

/-- Claim C2 (code bug): the WeatherApi history conversion does **not**
fail with an error value on an empty `forecastday` list or an empty `hour`
list of the selected day — it panics on an unchecked `unwrap`
(`models.rs` lines 80-83), modelled as `none`. -/
theorem history_conversion_panics_on_empty_lists :
    WeatherApiHistoryData.toWeatherData ⟨⟨[]⟩⟩ = none
    ∧ WeatherApiHistoryData.toWeatherData ⟨⟨[⟨[]⟩]⟩⟩ = none :=
  ⟨rfl, rfl⟩

/-- Claim C10: the canonical description of an OpenWeather payload is the
description of the **last** element of its weather list (consumed by
`pop`), the empty string when the list is empty; and for a list of two or
more entries the first entry never influences the result. -/
theorem openweather_description_from_last_weather_entry (d : OpenWeatherData) :
    (d.weather = [] → d.toWeatherData.description = "")
    ∧ (∀ w, d.weather.getLast? = some w → d.toWeatherData.description = w.description)
    ∧ (∀ w1 w2 ws, ws ≠ [] →
        (OpenWeatherData.toWeatherData ⟨d.main, w1 :: ws, d.visibility, d.wind⟩).description
          = (OpenWeatherData.toWeatherData ⟨d.main, w2 :: ws, d.visibility, d.wind⟩).description) := by
  refine ⟨fun h => ?_, fun w h => ?_, fun w1 w2 ws hws => ?_⟩
  · simp only [OpenWeatherData.toWeatherData, h, List.getLast?_nil]
  · simp only [OpenWeatherData.toWeatherData, h]
  · obtain ⟨a, t, rfl⟩ := List.exists_cons_of_ne_nil hws
    simp only [OpenWeatherData.toWeatherData, List.getLast?_cons_cons]

/-- Witness for C10: a two-entry list yields the last description, the
first entry is irrelevant, and the empty list yields the empty string. -/
theorem openweather_description_from_last_weather_entry_witness :
    ((⟨⟨20, 40, 1000⟩, [], 9000, ⟨3⟩⟩ : OpenWeatherData).weather = [] →
      (⟨⟨20, 40, 1000⟩, [], 9000, ⟨3⟩⟩ : OpenWeatherData).toWeatherData.description = "")
    ∧ (∀ w, (⟨⟨20, 40, 1000⟩, [⟨"first"⟩, ⟨"last"⟩], 9000, ⟨3⟩⟩ : OpenWeatherData).weather.getLast?
          = some w →
        (⟨⟨20, 40, 1000⟩, [⟨"first"⟩, ⟨"last"⟩], 9000, ⟨3⟩⟩ : OpenWeatherData).toWeatherData.description
          = w.description)
    ∧ (∀ w1 w2 ws, ws ≠ [] →
        (OpenWeatherData.toWeatherData ⟨⟨20, 40, 1000⟩, w1 :: ws, 9000, ⟨3⟩⟩).description
          = (OpenWeatherData.toWeatherData ⟨⟨20, 40, 1000⟩, w2 :: ws, 9000, ⟨3⟩⟩).description) :=
  ⟨(openweather_description_from_last_weather_entry ⟨⟨20, 40, 1000⟩, [], 9000, ⟨3⟩⟩).1,
   (openweather_description_from_last_weather_entry
      ⟨⟨20, 40, 1000⟩, [⟨"first"⟩, ⟨"last"⟩], 9000, ⟨3⟩⟩).2.1,
   (openweather_description_from_last_weather_entry ⟨⟨20, 40, 1000⟩, [], 9000, ⟨3⟩⟩).2.2⟩

/-- Claim C5: both constructors yield a `Creation` error exactly when the
URL is empty, the API key is empty, or both; with both non-empty they
succeed (storing the cleaned URL). -/
theorem constructors_creation_error_iff_empty (u k : String) :
    (OpenWeatherApiService.new u k = .error .creation ↔ u = "" ∨ k = "")
    ∧ (WeatherApiService.new u k = .error .creation ↔ u = "" ∨ k = "")
    ∧ (¬(u = "" ∨ k = "") →
        OpenWeatherApiService.new u k = .ok ⟨cleanUrl u, k⟩
        ∧ WeatherApiService.new u k = .ok ⟨cleanUrl u, k⟩) := by
  by_cases h : u = "" ∨ k = "" <;>
    simp [OpenWeatherApiService.new, WeatherApiService.new, h]

/-- Witness for C5: empty URL fails, empty key fails, both non-empty
succeeds. -/
theorem constructors_creation_error_iff_empty_witness :
    OpenWeatherApiService.new "" "key" = .error .creation
    ∧ WeatherApiService.new "url" "" = .error .creation
    ∧ OpenWeatherApiService.new "url" "key" = .ok ⟨cleanUrl "url", "key"⟩
    ∧ WeatherApiService.new "url" "key" = .ok ⟨cleanUrl "url", "key"⟩ :=
  ⟨(constructors_creation_error_iff_empty "" "key").1.mpr (Or.inl rfl),
   (constructors_creation_error_iff_empty "url" "").2.1.mpr (Or.inr rfl),
   ((constructors_creation_error_iff_empty "url" "key").2.2 (by decide)).1,
   ((constructors_creation_error_iff_empty "url" "key").2.2 (by decide)).2⟩

/-- Claim C6: for a non-empty URL with no trailing path separator and a
non-empty key, the URL with and without one appended trailing `'/'` yield
clients with identical stored URLs, and exactly one separator is stripped:
a URL ending in `"//"` keeps one trailing `'/'`. -/
theorem url_normalization_strips_one_trailing_slash
    (u k : String) (hu : u ≠ "") (hk : k ≠ "") (hs : u.data.getLast? ≠ some '/') :
    OpenWeatherApiService.new u k = .ok ⟨u, k⟩
    ∧ OpenWeatherApiService.new (u ++ "/") k = .ok ⟨u, k⟩
    ∧ WeatherApiService.new u k = .ok ⟨u, k⟩
    ∧ WeatherApiService.new (u ++ "/") k = .ok ⟨u, k⟩
    ∧ OpenWeatherApiService.new (u ++ "//") k = .ok ⟨u ++ "/", k⟩
    ∧ WeatherApiService.new (u ++ "//") k = .ok ⟨u ++ "/", k⟩ := by
  have h0 : ¬(u = "" ∨ k = "") := by
    rintro (h | h)
    exacts [hu h, hk h]
  have h1 : ¬(u ++ "/" = "" ∨ k = "") := by
    rintro (h | h)
    exacts [append_slash_ne_empty u "/" (by decide) h, hk h]
  have h2 : ¬(u ++ "//" = "" ∨ k = "") := by
    rintro (h | h)
    exacts [append_slash_ne_empty u "//" (by decide) h, hk h]
  refine ⟨?_, ?_, ?_, ?_, ?_, ?_⟩ <;>
    simp [OpenWeatherApiService.new, WeatherApiService.new, h0, h1, h2,
      cleanUrl_of_no_trailing_slash u hs, cleanUrl_append_slash,
      cleanUrl_append_two_slashes]

/-- Witness for C6 at the URL `"https://x"` and key `"key"`. -/
theorem url_normalization_strips_one_trailing_slash_witness :
    OpenWeatherApiService.new "https://x" "key" = .ok ⟨"https://x", "key"⟩
    ∧ OpenWeatherApiService.new ("https://x" ++ "/") "key" = .ok ⟨"https://x", "key"⟩
    ∧ WeatherApiService.new "https://x" "key" = .ok ⟨"https://x", "key"⟩
    ∧ WeatherApiService.new ("https://x" ++ "/") "key" = .ok ⟨"https://x", "key"⟩
    ∧ OpenWeatherApiService.new ("https://x" ++ "//") "key" = .ok ⟨"https://x" ++ "/", "key"⟩
    ∧ WeatherApiService.new ("https://x" ++ "//") "key" = .ok ⟨"https://x" ++ "/", "key"⟩ :=
  url_normalization_strips_one_trailing_slash "https://x" "key"
    (by decide) (by decide) (by decide)

/-- Claim C8 counterexample: the wind-speed conversion does **not**
multiply by the exact rational `1000/3600` — at input `1.0` the result is
the `f32` rounding of `1000/3600`, which differs from the exact rational. -/
theorem wind_factor_not_exact_rational_counterexample :
    km_per_hour_to_m_per_sec 1 ≠ 1 * (1000 / 3600) := by decide

/-- Claim C8 amended: the conversion multiplies (in `f32`) by the `f32`
rounding of `1000/3600`, namely `9320676 / 2^25`, which is not the exact
rational factor; for the input `36.0` the result is nevertheless exactly
`10.0`. -/
theorem wind_speed_conversion_f32_exact :
    km_per_hour_to_m_per_sec 36 = 10
    ∧ f32Div 1000 3600 = 9320676 / 2 ^ 25
    ∧ (9320676 / 2 ^ 25 : ℚ) ≠ 1000 / 3600 :=
  ⟨by decide, by decide, by decide⟩

/-- Claim C9: requesting the AccuWeather or AerisWeather provider yields
`ProviderNotImplemented` with no HTTP request issued and no provider
client constructed, for every configuration, address and date. -/
theorem not_implemented_providers_short_circuit
    (config : MainConfig) (parseDate : String → Option ℤ)
    (transport : HttpRequest → Option HttpResponse)
    (owDecode : String → Option OpenWeatherData)
    (owDecodeErr : String → Option OpenWeatherErrorData)
    (waDecode : String → Option WeatherApiData)
    (waDecodeHistory : String → Option WeatherApiHistoryData)
    (waDecodeErr : String → Option WeatherApiErrorData)
    (address : String) (date : Option String) :
    get_weather_info .accuWeather config parseDate transport owDecode owDecodeErr
        waDecode waDecodeHistory waDecodeErr address date = (.notImplemented, [], 0)
    ∧ get_weather_info .aerisWeather config parseDate transport owDecode owDecodeErr
        waDecode waDecodeHistory waDecodeErr address date = (.notImplemented, [], 0) :=
  ⟨rfl, rfl⟩

/-- Claim C3 counterexample: the WeatherApi client's `Server` message is
**not** character-for-character the provider payload's message — the
service wraps it in ANSI yellow escape codes
(`weatherapi_service.rs` line 119). -/
theorem server_message_not_verbatim_counterexample :
    (WeatherApiService.get_weather_data ⟨"http://u", "k"⟩ (fun _ => none)
        (fun _ => some ⟨500, some "b"⟩) (fun _ => none) (fun _ => none)
        (fun _ => some ⟨⟨1002, "boom"⟩⟩) "addr" none).1
      = .err (.server (yellow "boom"))
    ∧ yellow "boom" ≠ "boom" :=
  ⟨rfl, by decide⟩

/-- Claim C3 amended: on a non-success status whose body deserializes into
the provider's error schema, `get_weather_data` returns `Server(message)`
where the OpenWeather client passes the payload's `message` field through
verbatim, while the WeatherApi client wraps the payload's `error.message`
in ANSI yellow escape codes. -/
theorem server_error_message_propagation
    (owSvc : OpenWeatherApiService) (waSvc : WeatherApiService)
    (parseDate : String → Option ℤ) (transport : HttpRequest → Option HttpResponse)
    (owDecode : String → Option OpenWeatherData)
    (owDecodeErr : String → Option OpenWeatherErrorData)
    (waDecode : String → Option WeatherApiData)
    (waDecodeHistory : String → Option WeatherApiHistoryData)
    (waDecodeErr : String → Option WeatherApiErrorData)
    (address : String) (date : Option String)
    (resp : HttpResponse) (body : String)
    (owPayload : OpenWeatherErrorData) (waPayload : WeatherApiErrorData)
    (hst : resp.status ≠ 200) (hbody : resp.bodyText = some body) :
    (owDecodeErr body = some owPayload →
      OpenWeatherApiService.handleResponse owDecode owDecodeErr resp
        = .err (.server owPayload.message))
    ∧ (waDecodeErr body = some waPayload →
      WeatherApiService.handleResponse waDecode waDecodeHistory waDecodeErr date resp
        = .err (.server (yellow waPayload.error.message)))
    ∧ (transport ⟨owSvc.url, [("q", address), ("units", "metric"), ("appid", owSvc.api_key)]⟩
          = some resp →
       owDecodeErr body = some owPayload →
        (owSvc.get_weather_data parseDate transport owDecode owDecodeErr address none).1
          = .err (.server owPayload.message))
    ∧ (transport ⟨waSvc.url ++ "/current.json", [("q", address), ("key", waSvc.api_key)]⟩
          = some resp →
       waDecodeErr body = some waPayload →
        (waSvc.get_weather_data parseDate transport waDecode waDecodeHistory waDecodeErr
            address none).1
          = .err (.server (yellow waPayload.error.message))) := by
  have how : owDecodeErr body = some owPayload →
      OpenWeatherApiService.handleResponse owDecode owDecodeErr resp
        = .err (.server owPayload.message) := by
    intro he
    simp only [OpenWeatherApiService.handleResponse, hbody, if_neg hst, he]
  have hwa : ∀ dt : Option String, waDecodeErr body = some waPayload →
      WeatherApiService.handleResponse waDecode waDecodeHistory waDecodeErr dt resp
        = .err (.server (yellow waPayload.error.message)) := by
    intro dt he
    simp only [WeatherApiService.handleResponse, hbody, if_neg hst, he]
  refine ⟨how, hwa date, fun ht he => ?_, fun ht he => ?_⟩
  · simp only [OpenWeatherApiService.get_weather_data, ht]
    exact how he
  · simp only [WeatherApiService.get_weather_data, ht]
    exact hwa none he

/-- Witness for the amended C3 at a concrete 500-status response. -/
theorem server_error_message_propagation_witness :
    OpenWeatherApiService.handleResponse (fun _ => none)
        (fun _ => some ⟨"500", "m1"⟩) ⟨500, some "B"⟩
      = .err (.server "m1")
    ∧ WeatherApiService.handleResponse (fun _ => none) (fun _ => none)
        (fun _ => some ⟨⟨1002, "m2"⟩⟩) none ⟨500, some "B"⟩
      = .err (.server (yellow "m2"))
    ∧ (OpenWeatherApiService.get_weather_data ⟨"u", "k"⟩ (fun _ => none)
        (fun _ => some ⟨500, some "B"⟩) (fun _ => none) (fun _ => some ⟨"500", "m1"⟩)
        "a" none).1
      = .err (.server "m1")
    ∧ (WeatherApiService.get_weather_data ⟨"w", "k2"⟩ (fun _ => none)
        (fun _ => some ⟨500, some "B"⟩) (fun _ => none) (fun _ => none)
        (fun _ => some ⟨⟨1002, "m2"⟩⟩) "a" none).1
      = .err (.server (yellow "m2")) :=
  have h := server_error_message_propagation ⟨"u", "k"⟩ ⟨"w", "k2"⟩ (fun _ => none)
    (fun _ => some ⟨500, some "B"⟩) (fun _ => none) (fun _ => some ⟨"500", "m1"⟩)
    (fun _ => none) (fun _ => none) (fun _ => some ⟨⟨1002, "m2"⟩⟩) "a" none
    ⟨500, some "B"⟩ "B" ⟨"500", "m1"⟩ ⟨⟨1002, "m2"⟩⟩ (by decide) rfl
  ⟨h.1 rfl, h.2.1 rfl, h.2.2.1 rfl rfl, h.2.2.2 rfl rfl⟩

/-- Claim C4 counterexample: on an unparseable date the OpenWeather
client's `DateTimeParse` error carries **no** input string at all (the
source applies the `Parse` constructor to no argument,
`openweather_service.rs` line 80), and the WeatherApi client's error
carries the input wrapped in ANSI yellow escape codes rather than the
offending string itself. -/
theorem datetime_error_payload_counterexample :
    OpenWeatherApiService.get_weather_data ⟨"u", "k"⟩ (fun _ => none)
        (fun _ => none) (fun _ => none) (fun _ => none) "addr" (some "InvalidDate")
      = (.err (.dateTimeParse none), [])
    ∧ WeatherApiService.get_weather_data ⟨"u", "k"⟩ (fun _ => none)
        (fun _ => none) (fun _ => none) (fun _ => none) (fun _ => none)
        "addr" (some "InvalidDate")
      = (.err (.dateTimeParse (some (yellow "InvalidDate"))), [])
    ∧ yellow "InvalidDate" ≠ "InvalidDate" :=
  ⟨rfl, rfl, by decide⟩

/-- Claim C4 amended: an unrecognized date string makes `get_weather_data`
return a `DateTimeParse` error before any HTTP request is issued, for both
clients; the WeatherApi error carries the offending string wrapped in ANSI
yellow escape codes and the OpenWeather error carries no string. -/
theorem datetime_parse_failure_no_request
    (owSvc : OpenWeatherApiService) (waSvc : WeatherApiService)
    (parseDate : String → Option ℤ) (transport : HttpRequest → Option HttpResponse)
    (owDecode : String → Option OpenWeatherData)
    (owDecodeErr : String → Option OpenWeatherErrorData)
    (waDecode : String → Option WeatherApiData)
    (waDecodeHistory : String → Option WeatherApiHistoryData)
    (waDecodeErr : String → Option WeatherApiErrorData)
    (address d : String) (hp : parseDate d = none) :
    owSvc.get_weather_data parseDate transport owDecode owDecodeErr address (some d)
      = (.err (.dateTimeParse none), [])
    ∧ waSvc.get_weather_data parseDate transport waDecode waDecodeHistory waDecodeErr
        address (some d)
      = (.err (.dateTimeParse (some (yellow d))), []) := by
  constructor <;>
    simp only [OpenWeatherApiService.get_weather_data,
      WeatherApiService.get_weather_data, hp]

/-- Witness for the amended C4 at the date string `"InvalidDate"`. -/
theorem datetime_parse_failure_no_request_witness :
    OpenWeatherApiService.get_weather_data ⟨"u2", "k"⟩ (fun _ => none)
        (fun _ => some ⟨200, some "B"⟩) (fun _ => none) (fun _ => none)
        "a" (some "InvalidDate")
      = (.err (.dateTimeParse none), [])
    ∧ WeatherApiService.get_weather_data ⟨"w2", "k2"⟩ (fun _ => none)
        (fun _ => some ⟨200, some "B"⟩) (fun _ => none) (fun _ => none) (fun _ => none)
        "a" (some "InvalidDate")
      = (.err (.dateTimeParse (some (yellow "InvalidDate"))), []) :=
  datetime_parse_failure_no_request ⟨"u2", "k"⟩ ⟨"w2", "k2"⟩ (fun _ => none)
    (fun _ => some ⟨200, some "B"⟩) (fun _ => none) (fun _ => none) (fun _ => none)
    (fun _ => none) (fun _ => none) "a" "InvalidDate" rfl

/-- Claim C7: the WeatherApi client targets the stored base URL with
`/history.json` appended when a date is supplied and `/current.json`
otherwise, while the OpenWeather client always targets its stored URL
unchanged, attaching the parsed date's Unix timestamp as the extra `dt`
query parameter (WeatherApi: `unixdt`) when a date is supplied; exactly
one request is issued in every case. -/
theorem request_target_selection
    (owSvc : OpenWeatherApiService) (waSvc : WeatherApiService)
    (parseDate : String → Option ℤ) (transport : HttpRequest → Option HttpResponse)
    (owDecode : String → Option OpenWeatherData)
    (owDecodeErr : String → Option OpenWeatherErrorData)
    (waDecode : String → Option WeatherApiData)
    (waDecodeHistory : String → Option WeatherApiHistoryData)
    (waDecodeErr : String → Option WeatherApiErrorData)
    (address d : String) (ts : ℤ) (hp : parseDate d = some ts) :
    (waSvc.get_weather_data parseDate transport waDecode waDecodeHistory waDecodeErr
        address none).2
      = [⟨waSvc.url ++ "/current.json", [("q", address), ("key", waSvc.api_key)]⟩]
    ∧ (waSvc.get_weather_data parseDate transport waDecode waDecodeHistory waDecodeErr
        address (some d)).2
      = [⟨waSvc.url ++ "/history.json",
          [("q", address), ("key", waSvc.api_key), ("unixdt", toString ts)]⟩]
    ∧ (owSvc.get_weather_data parseDate transport owDecode owDecodeErr address none).2
      = [⟨owSvc.url, [("q", address), ("units", "metric"), ("appid", owSvc.api_key)]⟩]
    ∧ (owSvc.get_weather_data parseDate transport owDecode owDecodeErr address (some d)).2
      = [⟨owSvc.url,
          [("q", address), ("units", "metric"), ("appid", owSvc.api_key),
           ("dt", toString ts)]⟩] := by
  refine ⟨?_, ?_, ?_, ?_⟩ <;>
  · simp only [WeatherApiService.get_weather_data, OpenWeatherApiService.get_weather_data, hp]
    split <;> rfl

/-- Witness for C7 at a concrete date and timestamp. -/
theorem request_target_selection_witness :
    (WeatherApiService.get_weather_data ⟨"wurl", "wk"⟩ (fun _ => some 1697328000)
        (fun _ => none) (fun _ => none) (fun _ => none) (fun _ => none) "kyiv" none).2
      = [⟨"wurl" ++ "/current.json", [("q", "kyiv"), ("key", "wk")]⟩]
    ∧ (WeatherApiService.get_weather_data ⟨"wurl", "wk"⟩ (fun _ => some 1697328000)
        (fun _ => none) (fun _ => none) (fun _ => none) (fun _ => none)
        "kyiv" (some "2023-10-15")).2
      = [⟨"wurl" ++ "/history.json",
          [("q", "kyiv"), ("key", "wk"), ("unixdt", toString (1697328000 : ℤ))]⟩]
    ∧ (OpenWeatherApiService.get_weather_data ⟨"ourl", "ok"⟩ (fun _ => some 1697328000)
        (fun _ => none) (fun _ => none) (fun _ => none) "kyiv" none).2
      = [⟨"ourl", [("q", "kyiv"), ("units", "metric"), ("appid", "ok")]⟩]
    ∧ (OpenWeatherApiService.get_weather_data ⟨"ourl", "ok"⟩ (fun _ => some 1697328000)
        (fun _ => none) (fun _ => none) (fun _ => none) "kyiv" (some "2023-10-15")).2
      = [⟨"ourl",
          [("q", "kyiv"), ("units", "metric"), ("appid", "ok"),
           ("dt", toString (1697328000 : ℤ))]⟩] :=
  request_target_selection ⟨"ourl", "ok"⟩ ⟨"wurl", "wk"⟩ (fun _ => some 1697328000)
    (fun _ => none) (fun _ => none) (fun _ => none) (fun _ => none) (fun _ => none)
    (fun _ => none) "kyiv" "2023-10-15" 1697328000 rfl
